import Mathlib

/-
Verification of the transfer engine in src/frameioclient/lib/transfer.py
(python-frameio-client). The Python classes FrameioDownloader and AWSClient
are shallowly embedded: dictionaries become structures with Option-valued
fields for keys that may be absent, exceptions become an Except monad over
an explicit error type, and the filesystem and network are passed in as
explicit values (the size and hash of the file already on disk, the list of
per-chunk outcomes in settlement order). Wall-clock time, logging and the
progress-interval gate are abstracted: the gate becomes an uninterpreted
Bool valued function of the iteration index, and emitted progress events
are tracked by their status tag only.
-/

deriving instance DecidableEq for Except

namespace Frameio

/-- Python-level exceptions that the embedded code can raise. The first four
are builtin Python errors; the rest are the exception classes imported from
lib/exceptions.py at the top of transfer.py. -/
inductive PyErr where
  | attributeError
  | keyError (key : String)
  | indexError
  | unboundLocalError
  | downloadException
  | assetNotFullyUploaded
  | assetChecksumNotPresent
  | assetChecksumMismatch
  | watermarkIDDownloadException
  | requestsError
deriving DecidableEq

/-- The asset dictionary handed to FrameioDownloader. Fields model exactly
the keys the source reads: keys that may be absent are Option valued, and
asset["checksums"]["xx_hash"] is collapsed to one Option because the source
catches both TypeError and KeyError around that double lookup. `type_`
models the key "_type", `original` the key "original" (absent = KeyError on
subscript, none here), `downloads` the dict of resolution label to URL
(a URL value may itself be Python None). -/
structure Asset where
  id : String
  name : String
  type_ : Option String
  upload_completed_at : Option String
  checksums_xx_hash : Option String
  is_session_watermarked : Bool
  filesize : Nat
  original : Option String
  downloads : Option (List (String × Option String))
deriving DecidableEq

/-- Splitting a character list at every occurrence of the separator `c`,
with the semantics of the Python str.split method with an explicit
separator: adjacent separators yield empty pieces and the empty input
yields one empty piece. -/
def splitOnChar (c : Char) : List Char → List (List Char)
  | [] => [[]]
  | x :: xs =>
    let r := splitOnChar c xs
    if x = c then [] :: r
    else
      match r with
      | [] => [[x]]
      | y :: ys => (x :: y) :: ys

/-- Lexicographic comparison of character lists by code point, the order
Python uses to compare strings (and hence to sort dict keys). -/
def lexLe : List Char → List Char → Bool
  | [], _ => true
  | _ :: _, [] => false
  | x :: xs, y :: ys => if x = y then lexLe xs ys else decide (x < y)

/-- Value of a digit list read in base 10 with accumulator. -/
def digitsToNat : List Char → Nat → Nat
  | [], acc => acc
  | c :: cs, acc => digitsToNat cs (acc * 10 + (c.toNat - 48))

/-- Python int() applied to a string: an optional sign followed by one or
more decimal digits parses to its value, anything else raises ValueError
(none here). Surrounding whitespace and underscore digit grouping, which
Python also accepts, never occur in resolution labels and are not
modelled. -/
def py_int (s : List Char) : Option Int :=
  match s with
  | [] => none
  | '-' :: rest =>
    if rest ≠ [] ∧ rest.all (fun c => c.isDigit) then
      some (-(digitsToNat rest 0 : Int))
    else none
  | '+' :: rest =>
    if rest ≠ [] ∧ rest.all (fun c => c.isDigit) then
      some ((digitsToNat rest 0 : Int))
    else none
  | _ =>
    if s.all (fun c => c.isDigit) then some ((digitsToNat s 0 : Int))
    else none

/-- Model of posix os.path.join with two components, as used at lines 87
and 90 of transfer.py: an absolute second component wins, otherwise the
components are joined with exactly one separator between them. -/
def os_path_join (a b : String) : String :=
  if b.data.head? = some ('/') then b
  else if a = ("") then b
  else if a.data.getLast? = some ('/') then a ++ b
  else a ++ ("/") ++ b

/-- The fixed chunk size, 25 * 1024 * 1024 bytes (transfer.py line 52). -/
def chunk_size : Nat := 25 * 1024 * 1024

/-- self.chunks = math.ceil(self.filesize / self.chunk_size) (line 53).
Python evaluates the ceiling over float division; it is modelled as the
exact integer ceiling, which agrees for every realistic filesize. -/
def chunks_count (F : Nat) : Nat := (F + chunk_size - 1) / chunk_size

/-- FrameioDownloader._evaluate_asset (lines 68 to 81): raise
DownloadException unless asset.get("_type") == "file", raise
AssetNotFullyUploaded when asset.get("upload_completed_at") is None, then
extract asset["checksums"]["xx_hash"] with TypeError/KeyError collapsed to
None. Returns the extracted checksum. -/
def evaluate_asset (asset : Asset) : Except PyErr (Option String) :=
  if asset.type_ ≠ some ("file") then .error .downloadException
  else if asset.upload_completed_at = none then .error .assetNotFullyUploaded
  else .ok asset.checksums_xx_hash

/-- The state of a FrameioDownloader instance after __init__ (lines 27 to
65). Only the fields that the embedded methods read are kept; unused
runtime fields of the source (futures, session, aws_client, request_logs,
resolution_map, the never-read bytes counters of this class, asset_type,
checksum, in_progress) are omitted. `pfx` models the attribute named
prefix in the source. -/
structure FrameioDownloader where
  asset : Asset
  download_folder : String
  pfx : Option String
  multi_part : Bool
  replace : Bool
  use_temp_filename : Bool
  watermarked : Bool
  filesize : Nat
  original_checksum : Option String
  checksum_verification : Bool
  checksum_strict : Bool
  chunks : Nat
  filename : String
  destination : String
  destination_temp : Option String
  stats : Bool
deriving DecidableEq

/-- FrameioDownloader.__init__ (lines 27 to 65): set the configuration
fields, run _evaluate_asset (which can raise), then _get_path (lines 83 to
91). Utils.normalize_filename lives in lib/utils.py which is not part of
the sources here, so the normalization is passed in as the function
`normalize`. _get_path: prepend the truthy prefix to the filename, set
destination = os.path.join(download_folder, filename), and when
use_temp_filename is set compute
destination_temp = os.path.join(destination, ".tmp-" + asset["id"][:8]).
checksum_verification is hardcoded True and checksum_strict False
(lines 50 and 51); stats is hardcoded True (line 62). -/
def FrameioDownloader.init (normalize : String → String) (asset : Asset)
    (download_folder : String) (pfx : Option String)
    (multi_part replace use_temp_filename : Bool) :
    Except PyErr FrameioDownloader :=
  match evaluate_asset asset with
  | .error e => .error e
  | .ok chk =>
    let filename0 := normalize asset.name
    let filename :=
      match pfx with
      | some p => if p = ("") then filename0 else p ++ filename0
      | none => filename0
    let destination := os_path_join download_folder filename
    let destination_temp :=
      if use_temp_filename then
        some (os_path_join destination
          ((".tmp-") ++ String.mk (asset.id.data.take 8)))
      else none
    .ok { asset := asset, download_folder := download_folder, pfx := pfx,
          multi_part := multi_part, replace := replace,
          use_temp_filename := use_temp_filename,
          watermarked := asset.is_session_watermarked,
          filesize := asset.filesize, original_checksum := chk,
          checksum_verification := true, checksum_strict := false,
          chunks := chunks_count asset.filesize, filename := filename,
          destination := destination, destination_temp := destination_temp,
          stats := true }

/-- The body of _checksum_verify (lines 100 to 123), written for arbitrary
values of the two attribute lookups it performs on `self`:
`downloader_attr` is the value of the attribute named downloader (none
when the attribute does not exist on the receiver, in which case Python
raises AttributeError at the first dereference), and `strict_attr` the
value of the attribute named checksum_strict. `disk_sum` is the value
Utils.calculate_hash returns for the file at the given path. Faithful
control flow: when the asset checksum is absent, strict raises
AssetChecksumNotPresent and lenient returns False; on a hash mismatch,
strict raises AssetChecksumMismatch and lenient returns False; on a hash
match the source sets the local file_was_checksum_verified to True but
then falls off the end of the function, so Python returns None (modelled
as `.ok none`); when checksum_verification is not True the function
returns False. -/
def checksum_verify_body (downloader_attr : Option FrameioDownloader)
    (strict_attr : Option Bool) (disk_sum : String) :
    Except PyErr (Option Bool) :=
  match downloader_attr with
  | none => .error .attributeError
  | some dl =>
    if dl.checksum_verification = true then
      match dl.asset.checksums_xx_hash with
      | none =>
        match strict_attr with
        | none => .error .attributeError
        | some strict =>
          if strict then .error .assetChecksumNotPresent
          else .ok (some false)
      | some asset_sum =>
        if asset_sum = disk_sum then .ok none
        else
          match strict_attr with
          | none => .error .attributeError
          | some strict =>
            if strict then .error .assetChecksumMismatch
            else .ok (some false)
    else .ok (some false)

/-- FrameioDownloader._checksum_verify as actually invokable on a
FrameioDownloader instance: the class never assigns a downloader
attribute, so `downloader_attr` is none and every call raises
AttributeError at `self.downloader.checksum_verification` (line 102);
the checksum_strict attribute does exist on this class (line 51). -/
def FrameioDownloader.checksum_verify (d : FrameioDownloader)
    (disk_sum : String) : Except PyErr (Option Bool) :=
  checksum_verify_body none (some d.checksum_strict) disk_sum

/-- Insertion of one key/value pair into a list sorted by key, used to
model Python sorted over dict items (keys are distinct, so only the key
ordering matters). -/
def insert_by_key (x : String × Option String) :
    List (String × Option String) → List (String × Option String)
  | [] => [x]
  | y :: ys =>
    if lexLe x.1.data y.1.data then x :: y :: ys
    else y :: insert_by_key x ys

/-- sorted(self.asset["downloads"].items()) (line 142): the items in
ascending lexicographic key order. -/
def sorted_items (l : List (String × Option String)) :
    List (String × Option String) :=
  l.foldr insert_by_key []

/-- The loop body of get_download_key (lines 142 to 154): for each item in
sorted key order, take key.split("_")[1] (IndexError when the key has no
underscore, propagating uncaught since the surrounding try only catches
KeyError), try int() on it (ValueError means continue), and append the URL
to the accumulator when it is not None. The parsed number itself is
discarded by the source. -/
def resolution_scan :
    List (String × Option String) → List String → Except PyErr (List String)
  | [], acc => .ok acc
  | (key, urlOpt) :: rest, acc =>
    match (splitOnChar ('_') key.data).get? 1 with
    | none => .error .indexError
    | some res =>
      match py_int res with
      | none => resolution_scan rest acc
      | some _ =>
        match urlOpt with
        | some u => resolution_scan rest (acc ++ [u])
        | none => resolution_scan rest acc

/-- FrameioDownloader.get_download_key (lines 135 to 163). When
asset["original"] exists it is returned. Otherwise, when watermarked,
the download variants are scanned in sorted key order and the FIRST
collected URL (resolution_list[0], line 157) is returned; an empty
collected list makes that subscript raise IndexError, which the
surrounding try does not catch (it catches KeyError only, turning a
missing "downloads" key into DownloadException). When not watermarked,
WatermarkIDDownloadException is raised. -/
def FrameioDownloader.get_download_key (d : FrameioDownloader) :
    Except PyErr String :=
  match d.asset.original with
  | some url => .ok url
  | none =>
    if d.watermarked = true then
      match d.asset.downloads with
      | none => .error .downloadException
      | some items =>
        match resolution_scan (sorted_items items) [] with
        | .error e => .error e
        | .ok resolution_list =>
          match resolution_list.head? with
          | some u => .ok u
          | none => .error .indexError
    else .error .watermarkIDDownloadException

/-- Which transfer strategy download() dispatches to. -/
inductive TransferMethod where
  | whole
  | multiThread
deriving DecidableEq

/-- The strategy dispatch of download() (lines 243 to 254): watermarked
assets always take _download_whole; otherwise a filesize under 26214400
bytes takes _download_whole regardless of multi_part; otherwise
multi_part selects _multi_thread_download, default _download_whole. -/
def select_transfer (watermarked : Bool) (filesize : Nat)
    (multi_part : Bool) : TransferMethod :=
  if watermarked = true then .whole
  else if filesize < 26214400 then .whole
  else if multi_part = true then .multiThread
  else .whole

/-- The file found at the destination path before the download starts:
its byte size and its content hash as Utils.calculate_hash would report
it. -/
structure DiskFile where
  size : Nat
  hash : String
deriving DecidableEq

/-- The dict literals returned by the skip branches of download()
(lines 192 to 231), field for field. -/
structure OutcomeDict where
  outcome_code : Nat
  outcome_file_exists : Bool
  outcome_filesize_matched : Option Bool
  outcome_checksum_matched : Option Bool
deriving DecidableEq

/-- Result of the embedded download(): either one of the early-return skip
dicts (with a flag recording whether send2trash was invoked on the
existing file), or the dispatch into a transfer against the resolved
URL. -/
inductive DownloadResult where
  | skip (dict : OutcomeDict) (trashed : Bool)
  | transfer (method : TransferMethod) (url : String)
deriving DecidableEq

/-- The tail of download() after the existing-file reconciliation
(lines 233 to 254): resolve the URL via get_download_key, construct
AWSClient -- whose __init__ evaluates
self.downloader.asset["original"] unconditionally (line 273), raising
KeyError when the key is absent -- then dispatch per select_transfer. -/
def FrameioDownloader.transfer_stage (d : FrameioDownloader) :
    Except PyErr DownloadResult :=
  match d.get_download_key with
  | .error e => .error e
  | .ok url =>
    match d.asset.original with
    | none => .error (.keyError ("original"))
    | some _ =>
      .ok (.transfer (select_transfer d.watermarked d.filesize d.multi_part)
        url)

/-- FrameioDownloader.download (lines 165 to 254). The directory check and
mkdir are filesystem effects with no bearing on the result and are
abstracted away; `on_disk` is the file already present at the destination
path, if any. Faithful control flow of the reconciliation block
(lines 181 to 231): with checksum_verification on, the result of
_checksum_verify is compared against True -- the True branch only logs
and then FALLS THROUGH to the network section (the source has no return
there); the non-True branch returns a skip dict, invoking send2trash
first when replace is set. With checksum_verification off, the source
compares sizes and returns one of three skip dicts (none of which
deletes the file or proceeds to fetch). -/
def FrameioDownloader.download (d : FrameioDownloader)
    (on_disk : Option DiskFile) : Except PyErr DownloadResult :=
  match on_disk with
  | some f =>
    if d.checksum_verification = true then
      match d.checksum_verify f.hash with
      | .error e => .error e
      | .ok r =>
        if r = some true then d.transfer_stage
        else if d.replace = true then
          .ok (.skip ⟨0, true, none, some false⟩ true)
        else .ok (.skip ⟨1, true, none, some false⟩ false)
    else
      if d.filesize = f.size then
        .ok (.skip ⟨1, true, some true, some false⟩ false)
      else if d.replace = true then
        .ok (.skip ⟨0, true, some false, some false⟩ false)
      else .ok (.skip ⟨1, true, some false, some false⟩ false)
  | none => d.transfer_stage

/-- A chunk task tuple as built at line 511: the URL (always
asset["original"]), the start byte, the end byte, and the chunk index. -/
def ChunkTask := String × Nat × Nat × Nat
deriving instance DecidableEq for ChunkTask

/-- offset = math.ceil(self.downloader.filesize / self.downloader.chunks)
(line 492), again modelled as the exact integer ceiling. -/
def chunk_offset (F : Nat) : Nat :=
  (F + chunks_count F - 1) / chunks_count F

/-- The task-building loop of _multi_thread_download (lines 506 to 521),
written as a recursion over the remaining iteration count: the loop
variable i starts at 0, in_byte starts at 0, each iteration emits the task
(url, in_byte, offset * (i + 1), i) and then sets in_byte to the out byte
just used. No clamping of the final out byte happens anywhere. -/
def multi_thread_tasks_loop (u : String) (off : Nat) :
    Nat → Nat → Nat → List ChunkTask
  | 0, _, _ => []
  | k + 1, i, in_byte =>
    (u, in_byte, off * (i + 1), i) ::
      multi_thread_tasks_loop u off k (i + 1) (off * (i + 1))

/-- All chunk tasks that _multi_thread_download submits for a file of
`F` bytes at URL `u`: chunks_count F iterations of the loop starting from
i = 0 and in_byte = 0. -/
def multi_thread_tasks (u : String) (F : Nat) : List ChunkTask :=
  multi_thread_tasks_loop u (chunk_offset F) (chunks_count F) 0 0

/-- The two shared byte counters that _download_chunk mutates on the
AWSClient instance (lines 269 and 270 initialise them to 0). The spec
notes the lack of synchronisation as a defect; the accounting logic is
modelled as the sequence of updates in settlement order. -/
structure ChunkCounters where
  bytes_started : Int
  bytes_completed : Int
deriving DecidableEq

/-- The counter updates of one _download_chunk call (lines 437 to 482):
chunk_size starts as end_byte - start_byte; when adding it to
bytes_started would exceed the filesize, it is first shrunk by
abs(filesize - (bytes_started + chunk_size)); bytes_started then grows by
the (possibly shrunk) amount. After the write, chunk_size is overwritten
with len(r.content) -- the `content_len` argument here -- and
bytes_completed grows by that, clamped down to the filesize when the sum
overruns it. Returns the new counters and the returned chunk_size. -/
def download_chunk_step (filesize : Int) (st : ChunkCounters)
    (start_byte end_byte content_len : Int) : ChunkCounters × Int :=
  let nominal := end_byte - start_byte
  let recorded :=
    if st.bytes_started + nominal > filesize then
      nominal - |filesize - (st.bytes_started + nominal)|
    else nominal
  let started := st.bytes_started + recorded
  let completed0 := st.bytes_completed + content_len
  let completed :=
    if completed0 > filesize then filesize else completed0
  (⟨started, completed⟩, content_len)

/-- Folding the counter updates of a whole chunked transfer, from the
zero-initialised counters, over the list of (start byte, end byte,
received length) triples in settlement order. -/
def run_chunks (filesize : Int) (evs : List (Int × Int × Int)) :
    ChunkCounters :=
  evs.foldl
    (fun st ev => (download_chunk_step filesize st ev.1 ev.2.1 ev.2.2).1)
    ⟨0, 0⟩

/-- Status tags of the progress events the coordinator emits; the other
payload entries of the progress_values dict (times, percent, byte counts)
are abstracted away. -/
inductive EvStatus where
  | incomplete
  | complete
  | failed
deriving DecidableEq

/-- Modelled from the spec: the checksum verifier reached from AWSClient.
The calls self._checksum_verify(self.destination) at lines 417 and 571
resolve through the base class HTTPClient (lib/transport.py), which is not
among the sources here; section 4.5 of the spec gives the verifier
contract, which this definition follows word for word: absent expected
hash raises under strict and returns false under lenient; a mismatch
raises under strict and returns false under lenient; a match returns
true. -/
def spec_checksum_verify (expected : Option String) (strict : Bool)
    (disk : String) : Except PyErr Bool :=
  match expected with
  | none =>
    if strict then .error .assetChecksumNotPresent else .ok false
  | some e =>
    if e = disk then .ok true
    else if strict then .error .assetChecksumMismatch
    else .ok false

/-- The as_completed loop of _multi_thread_download (lines 535 to 553).
`cb` records whether a progress_callback was supplied; `gate k` abstracts
the wall-clock test datetime.now() >= time_update at the k-th settled
future. A successful future adds its returned size to bytes_downloaded
and emits an incomplete event when the callback is present and the gate
passes. A failed future is caught by the except block, which FIRST
assigns progress_values["status"] -- a name that is only bound when a
callback was supplied (line 526) -- so without a callback the handler
itself raises UnboundLocalError and the loop aborts; with a callback the
failed event is emitted unconditionally (no gate) and the loop goes on.
The percent computation is abstracted (the filesize here is at least
26214400 whenever this path is reached, so its division never divides by
zero). -/
def as_completed_loop (cb : Bool) (gate : Nat → Bool) :
    List (Except PyErr Int) → Nat → Int → List EvStatus →
    Except PyErr (Int × List EvStatus)
  | [], _, bytes, evs => .ok (bytes, evs)
  | .ok sz :: rest, k, bytes, evs =>
    as_completed_loop cb gate rest (k + 1) (bytes + sz)
      (if cb ∧ gate k then evs ++ [.incomplete] else evs)
  | .error _ :: rest, k, bytes, evs =>
    if cb then as_completed_loop cb gate rest (k + 1) bytes (evs ++ [.failed])
    else .error .unboundLocalError

/-- The result dict of _multi_thread_download (lines 574 to 586), with
the time and speed entries abstracted; `renamed` records whether the
best-effort temp rename (line 556, exceptions swallowed) was attempted,
and `events` the statuses emitted over the whole run. -/
structure MTResult where
  verified : Bool
  renamed : Bool
  events : List EvStatus
  bytes_downloaded : Int
  chunks_num : Nat
  destination : String
deriving DecidableEq

/-- The finalization tail of _multi_thread_download (lines 554 to 588),
run after every submitted future has settled: rename the temp file when
use_temp_filename is set (best effort), emit the final complete event
when a callback is present (unconditionally, no gate), run checksum
verification when enabled (through the spec-modelled verifier, since the
AWSClient resolution of _checksum_verify is outside these sources), and
build the result dict (downloader.stats is always True, so the dict
branch is always taken). -/
def multi_thread_finalize (d : FrameioDownloader) (cb : Bool)
    (disk_hash : String) (bytes : Int) (evs : List EvStatus) :
    Except PyErr MTResult :=
  let evs2 := if cb then evs ++ [.complete] else evs
  let verifyStep : Except PyErr Bool :=
    if d.checksum_verification = true then
      spec_checksum_verify d.original_checksum d.checksum_strict disk_hash
    else .ok false
  match verifyStep with
  | .error e => .error e
  | .ok v =>
    .ok { verified := v, renamed := d.use_temp_filename, events := evs2,
          bytes_downloaded := bytes, chunks_num := d.chunks,
          destination := d.destination }

/-- The settlement-and-finalization phase of _multi_thread_download:
consume every future outcome through the as_completed loop, then
finalize. (The stub creation and task submission that precede it are
filesystem and thread-pool effects; the submitted task list itself is
modelled separately by multi_thread_tasks.) -/
def multi_thread_download (d : FrameioDownloader) (cb : Bool)
    (gate : Nat → Bool) (outcomes : List (Except PyErr Int))
    (disk_hash : String) : Except PyErr MTResult :=
  match as_completed_loop cb gate outcomes 0 0 [] with
  | .error e => .error e
  | .ok (bytes, evs) => multi_thread_finalize d cb disk_hash bytes evs

/-- A well-formed downloadable asset with an original URL and an xxhash
checksum, used as the concrete input for claim C1. -/
def c1_asset : Asset :=
  ⟨("8fa26e04-1111"), ("film.mp4"), some ("file"), some ("t"),
    some ("abc"), false, 100000000, some ("http://x/orig"), none⟩

/-- The downloader state FrameioDownloader.__init__ produces for c1_asset
with all options at their defaults (checksum_verification true,
checksum_strict false, replace false). -/
def c1_dl : FrameioDownloader :=
  ⟨c1_asset, ("Downloads"), none, false, false, false, false, 100000000,
    some ("abc"), true, false, 4, ("film.mp4"), ("Downloads/film.mp4"),
    none, true⟩

/-- Same downloader but constructed with replace = True. -/
def c1r_dl : FrameioDownloader :=
  ⟨c1_asset, ("Downloads"), none, false, true, false, false, 100000000,
    some ("abc"), true, false, 4, ("film.mp4"), ("Downloads/film.mp4"),
    none, true⟩

/-- Claim C1: with a file already at the destination and checksum
verification enabled (the default), download() is claimed to return skip
results or proceed to fetch according to the hash comparison. What the
code does instead, at every such input: download() calls
self._checksum_verify (line 184), whose body dereferences
self.downloader (line 102) -- an attribute FrameioDownloader never sets
-- so the call raises AttributeError before any comparison. This theorem
evaluates the embedded pipeline at a concrete asset whose on-disk hash
EQUALS the asset checksum (first with replace false, then with replace
true): both runs raise AttributeError instead of producing the claimed
skip-verified result. The source also shows two further slips behind
this one: the hash-match branch (line 185) has no return statement and
falls through to the network section, and the mismatch replace branch
(lines 188 to 197) returns immediately after send2trash instead of
proceeding to fetch. -/
theorem download_existing_checksum_crash :
    FrameioDownloader.init id c1_asset ("Downloads") none false false false
      = .ok c1_dl
    ∧ FrameioDownloader.init id c1_asset ("Downloads") none false true false
      = .ok c1r_dl
    ∧ c1_dl.download (some ⟨100000000, ("abc")⟩) = .error .attributeError
    ∧ c1r_dl.download (some ⟨100000000, ("abc")⟩) = .error .attributeError
    := by decide

/-- Claim C2 (counterexample): the claim states that the last chunk task
has its end byte clamped to the filesize so that the half-open ranges tile
exactly the interval from 0 to the filesize. At filesize 26214401 (one
byte over the 25 MiB chunk size) the planner builds two tasks with offset
13107201, and the last task ends at 26214402, one byte PAST the filesize:
no clamping happens in the source (line 508 computes
out_byte = offset * (i + 1) for every chunk including the last). -/
theorem multi_thread_tasks_no_clamp :
    multi_thread_tasks ("u") 26214401 =
      [(("u"), 0, 13107201, 0), (("u"), 13107201, 26214402, 1)]
    ∧ (26214402 : Nat) ≠ 26214401 := by decide

/-- Helper: the task loop started at index i with in_byte equal to
off * i produces exactly the tasks (u, off * j, off * (j + 1), j) for the
next k indices j. -/
theorem multi_thread_tasks_loop_eq (u : String) (off : Nat) :
    ∀ (k i : Nat),
      multi_thread_tasks_loop u off k i (off * i) =
        (List.range' i k).map (fun j => (u, off * j, off * (j + 1), j))
  | 0, _ => rfl
  | k + 1, i => by
    rw [List.range']
    rw [List.map_cons]
    rw [multi_thread_tasks_loop]
    rw [multi_thread_tasks_loop_eq u off k (i + 1)]

/-- Claim C2 (amended): for every filesize F > 0 the planner creates
chunks_count F = ceil(F / 25 MiB) tasks with start byte i * offset and
end byte (i + 1) * offset where offset = ceil(F / chunkCount), WITHOUT
clamping the last end byte; consecutive ranges abut (no gap, no overlap),
they cover the interval from 0 to F because
F <= chunkCount * offset, and the total overshoot past F is less than
chunkCount bytes. -/
theorem multi_thread_tasks_amended (u : String) (F : Nat) (hF : 0 < F) :
    multi_thread_tasks u F =
      (List.range (chunks_count F)).map
        (fun i => (u, i * chunk_offset F, (i + 1) * chunk_offset F, i))
    ∧ F ≤ chunks_count F * chunk_offset F
    ∧ chunks_count F * chunk_offset F < F + chunks_count F := by
  have hC : 0 < chunk_size := by decide
  have hn : 1 ≤ chunks_count F := by
    rw [chunks_count, Nat.le_div_iff_mul_le hC]
    omega
  refine ⟨?_, ?_⟩
  · have h0 := multi_thread_tasks_loop_eq u (chunk_offset F)
      (chunks_count F) 0
    rw [Nat.mul_zero] at h0
    rw [multi_thread_tasks, h0, List.range_eq_range']
    refine List.map_congr_left ?_
    intro j _
    rw [Nat.mul_comm (chunk_offset F) j, Nat.mul_comm (chunk_offset F) (j + 1)]
  · have hdm := Nat.div_add_mod (F + chunks_count F - 1) (chunks_count F)
    have hmod := Nat.mod_lt (F + chunks_count F - 1)
      (show 0 < chunks_count F from hn)
    rw [chunk_offset]
    have key : ∀ (m r : Nat),
        chunks_count F * ((F + chunks_count F - 1) / chunks_count F) = m →
        (F + chunks_count F - 1) % chunks_count F = r →
        m + r = F + chunks_count F - 1 → r < chunks_count F →
        F ≤ m ∧ m < F + chunks_count F := by
      intro m r _ _ h1 h2
      omega
    exact key _ _ rfl rfl hdm hmod

/-- Witness for claim C2 at the scenario from the spec: a 100000000 byte
file splits into 4 chunks of 25000000 bytes tiling 0 to 100000000. -/
theorem multi_thread_tasks_amended_witness :
    multi_thread_tasks ("u") 100000000 =
      [(("u"), 0, 25000000, 0), (("u"), 25000000, 50000000, 1),
       (("u"), 50000000, 75000000, 2), (("u"), 75000000, 100000000, 3)]
    ∧ 100000000 ≤ chunks_count 100000000 * chunk_offset 100000000 := by
  have h := multi_thread_tasks_amended ("u") 100000000 (by decide)
  exact ⟨h.1.trans (by decide), h.2.1⟩

/-- Watermarked asset whose variant labels are sd_360 and uhd_2160: the
numeric maximum is 2160, but sd_360 sorts first lexicographically. -/
def c3a_asset : Asset :=
  ⟨("aaaa"), ("v.mp4"), some ("file"), some ("t"), none, true, 50000000,
    none, some [(("sd_360"), some ("url1")), (("uhd_2160"), some ("url2"))]⟩

/-- Downloader over c3a_asset. -/
def c3a_dl : FrameioDownloader :=
  ⟨c3a_asset, ("dl"), none, false, false, false, true, 50000000, none,
    true, false, 2, ("v.mp4"), ("dl/v.mp4"), none, true⟩

/-- Watermarked asset carrying exactly the variant map from the spec
example: sd_360, hd_1080 and bad_label. -/
def c3b_asset : Asset :=
  ⟨("aaaa"), ("v.mp4"), some ("file"), some ("t"), none, true, 50000000,
    none, some [(("sd_360"), some ("url1")), (("hd_1080"), some ("url2")),
      (("bad_label"), some ("url3"))]⟩

/-- Downloader over c3b_asset. -/
def c3b_dl : FrameioDownloader :=
  ⟨c3b_asset, ("dl"), none, false, false, false, true, 50000000, none,
    true, false, 2, ("v.mp4"), ("dl/v.mp4"), none, true⟩

/-- Watermarked asset none of whose variant labels parses as a number. -/
def c3c_asset : Asset :=
  ⟨("aaaa"), ("v.mp4"), some ("file"), some ("t"), none, true, 50000000,
    none, some [(("bad_label"), some ("url3"))]⟩

/-- Downloader over c3c_asset. -/
def c3c_dl : FrameioDownloader :=
  ⟨c3c_asset, ("dl"), none, false, false, false, true, 50000000, none,
    true, false, 2, ("v.mp4"), ("dl/v.mp4"), none, true⟩

/-- Claim C3: the claim (and the source comment at line 156) say the
watermark path selects the URL whose resolution label is the numeric
maximum, and that an asset with no parsable label fails with a download
resolution error. What the code does: it walks the variants in sorted
KEY order and returns the FIRST collected URL. On c3a_asset that returns
url1 (resolution 360) although the numeric maximum is 2160 (url2) -- the
first conjunct exhibits the divergence. On the exact example from the
spec the lexicographic accident makes hd_1080 sort first, so url2 is
returned as claimed (second conjunct). With no parsable label at all,
resolution_list[0] at line 157 raises IndexError, which the surrounding
try (except KeyError) does not catch, so an IndexError propagates instead
of any library error (third conjunct). -/
theorem get_download_key_first_sorted_not_max :
    c3a_dl.get_download_key = .ok ("url1")
    ∧ c3b_dl.get_download_key = .ok ("url2")
    ∧ c3c_dl.get_download_key = .error .indexError := by decide

/-- Claim C4: strategy selection at lines 243 to 254. Watermarked assets
always take whole-file transfer; non-watermarked assets under 26214400
bytes take whole-file transfer even when multi_part was requested;
non-watermarked assets of at least 26214400 bytes take the chunked path
exactly when multi_part was requested. -/
theorem select_transfer_strategy (w m : Bool) (f : Nat) :
    (w = true → select_transfer w f m = .whole)
    ∧ (w = false → f < 26214400 → select_transfer w f m = .whole)
    ∧ (w = false → 26214400 ≤ f →
        (select_transfer w f m = .multiThread ↔ m = true)) := by
  refine ⟨fun hw => by simp [select_transfer, hw],
    fun hw hf => by simp [select_transfer, hw, hf], fun hw hf => ?_⟩
  have hnf : ¬ f < 26214400 := Nat.not_lt.mpr hf
  cases m <;> simp [select_transfer, hw, hnf]

/-- Witness for claim C4: at the 25 MiB boundary with multi_part
requested the chunked path is taken; a watermarked asset of the same size
and a small non-watermarked asset both take the whole-file path. -/
theorem select_transfer_strategy_witness :
    select_transfer false 26214400 true = .multiThread
    ∧ select_transfer true 26214400 true = .whole
    ∧ select_transfer false 100 true = .whole :=
  ⟨((select_transfer_strategy false true 26214400).2.2 rfl (by decide)).mpr
      rfl,
   (select_transfer_strategy true true 26214400).1 rfl,
   (select_transfer_strategy false true 100).2.1 rfl (by decide)⟩

/-- Downloader whose asset carries the checksum abc, with verification
enabled, used as the concrete input for claim C5. -/
def c5_dl : FrameioDownloader :=
  ⟨⟨("bbbb"), ("w.mp4"), some ("file"), some ("t"), some ("abc"), false,
      1000, some ("http://x/w"), none⟩,
    ("dl"), none, false, false, false, false, 1000, some ("abc"), true,
    false, 1, ("w.mp4"), ("dl/w.mp4"), none, true⟩

/-- Claim C5: the claim gives the checksum verifier contract (absent hash:
strict raises AssetChecksumNotPresent, lenient returns False; mismatch:
strict raises AssetChecksumMismatch, lenient returns False; match:
returns True). What the code does: first, _checksum_verify is defined on
FrameioDownloader but reads self.downloader (line 102), an attribute that
class never sets, so EVERY call on a FrameioDownloader raises
AttributeError before any of the specified behavior (first conjunct,
over all instances and all disk hashes). Second, even under the intended
attribute resolution (the body evaluated with the downloader attribute
present), the hash-match branch at line 116 only sets a local variable
and the function falls off its end, returning None rather than True
(second conjunct). The absent and mismatch branches do follow the claimed
contract, but they sit behind the same broken attribute access. -/
theorem checksum_verify_crash_and_missing_return :
    (∀ (d : FrameioDownloader) (h : String),
      d.checksum_verify h = .error .attributeError)
    ∧ (∀ (dl : FrameioDownloader) (strict : Bool) (s : String),
        dl.checksum_verification = true →
        dl.asset.checksums_xx_hash = some s →
        checksum_verify_body (some dl) (some strict) s = .ok none) := by
  constructor
  · intro d h
    rfl
  · intro dl strict s h1 h2
    simp [checksum_verify_body, h1, h2]

/-- Witness for claim C5 at the concrete downloader c5_dl with matching
hashes. -/
theorem checksum_verify_crash_witness :
    c5_dl.checksum_verify ("abc") = .error .attributeError
    ∧ checksum_verify_body (some c5_dl) (some false) ("abc") = .ok none :=
  ⟨checksum_verify_crash_and_missing_return.1 c5_dl ("abc"),
   checksum_verify_crash_and_missing_return.2 c5_dl false ("abc") rfl rfl⟩

/-- Downloader for a large non-watermarked asset taking the chunked path,
used as the concrete input for claim C6. Its asset checksum is absent and
checksum_strict is false, so finalization verification is lenient. -/
def c6_dl : FrameioDownloader :=
  ⟨⟨("cccc"), ("big.mov"), some ("file"), some ("t"), none, false,
      52428802, some ("http://x/big"), none⟩,
    ("dl"), none, true, false, false, false, 52428802, none, true, false,
    3, ("big.mov"), ("dl/big.mov"), none, true⟩

/-- Claim C6: the claim states that a failed chunk is caught, surfaces as
a failed progress event, never aborts the remaining chunks, and that the
coordinator always finalizes and produces a result. What the code does
when download() was called without a progress callback (the default): the
except block at line 550 assigns progress_values["status"] BEFORE the
callback guard, but progress_values is only ever bound when a callback
was supplied (line 526), so the first failed chunk makes the handler
itself raise UnboundLocalError, aborting the completion loop -- the third
settled chunk is never aggregated, and neither the rename, the checksum
verification, nor the result dict is reached. This theorem evaluates the
settlement phase on three chunk outcomes whose second one failed. -/
theorem multi_thread_failed_chunk_unbound_local :
    multi_thread_download c6_dl false (fun _ => false)
      [.ok 17476268, .error .requestsError, .ok 17476268] ("h")
      = .error .unboundLocalError := by decide

/-- Helper: with a progress callback present, the settlement loop never
raises -- it consumes every outcome, failed ones included, and returns
the aggregated pair. -/
theorem as_completed_loop_callback_total (gate : Nat → Bool) :
    ∀ (outcomes : List (Except PyErr Int)) (k : Nat) (bytes : Int)
      (evs : List EvStatus),
      ∃ b e, as_completed_loop true gate outcomes k bytes evs = .ok (b, e)
  | [], _, bytes, evs => ⟨bytes, evs, rfl⟩
  | .ok sz :: rest, k, bytes, evs => by
    rw [as_completed_loop]
    exact as_completed_loop_callback_total gate rest (k + 1) (bytes + sz) _
  | .error _ :: rest, k, bytes, evs => by
    rw [as_completed_loop, if_pos rfl]
    exact as_completed_loop_callback_total gate rest (k + 1) bytes
      (evs ++ [.failed])

/-- Helper: the lenient checksum verifier never raises. -/
theorem spec_checksum_verify_lenient_ok (expected : Option String)
    (disk : String) :
    ∃ v, spec_checksum_verify expected false disk = .ok v := by
  cases expected with
  | none => exact ⟨false, rfl⟩
  | some e =>
    by_cases he : e = disk
    · exact ⟨true, by simp [spec_checksum_verify, he]⟩
    · exact ⟨false, by simp [spec_checksum_verify, he]⟩

/-- Helper: with a progress callback present and the default lenient
checksum policy, the chunked coordinator always reaches finalization and
produces a result dict, whatever mix of successes and failures the chunks
settled with. -/
theorem multi_thread_download_callback_settles (d : FrameioDownloader)
    (gate : Nat → Bool) (outcomes : List (Except PyErr Int))
    (disk_hash : String) (hs : d.checksum_strict = false) :
    ∃ r, multi_thread_download d true gate outcomes disk_hash = .ok r := by
  obtain ⟨b, e, hloop⟩ :=
    as_completed_loop_callback_total gate outcomes 0 0 []
  rw [multi_thread_download, hloop]
  unfold multi_thread_finalize
  by_cases hv : d.checksum_verification = true
  · obtain ⟨v, hver⟩ := spec_checksum_verify_lenient_ok d.original_checksum
      disk_hash
    simp [hs, hv, hver]
  · simp [hv]

/-- Claim C7: _evaluate_asset runs from __init__ before anything else, and
a failure there aborts construction of the downloader -- no path has been
computed, no directory created, no network touched (the constructor
performs no I/O at all; the first filesystem access is the mkdir check
inside download()). An asset whose _type is not the string file fails
with DownloadException (the source wording for an unsupported asset
type); an asset whose _type is file but whose upload_completed_at is
absent (or explicitly null, which .get also reports as None) fails with
AssetNotFullyUploaded. Both facts are stated for _evaluate_asset itself
and for the full constructor. -/
theorem evaluate_asset_validation (a : Asset) (nrm : String → String)
    (folder : String) (p : Option String) (mp rp tmp : Bool) :
    (a.type_ ≠ some ("file") →
      evaluate_asset a = .error .downloadException
      ∧ FrameioDownloader.init nrm a folder p mp rp tmp =
          .error .downloadException)
    ∧ (a.type_ = some ("file") → a.upload_completed_at = none →
        evaluate_asset a = .error .assetNotFullyUploaded
        ∧ FrameioDownloader.init nrm a folder p mp rp tmp =
            .error .assetNotFullyUploaded) := by
  constructor
  · intro h
    have he : evaluate_asset a = .error .downloadException := by
      simp [evaluate_asset, h]
    exact ⟨he, by rw [FrameioDownloader.init, he]⟩
  · intro h1 h2
    have he : evaluate_asset a = .error .assetNotFullyUploaded := by
      simp [evaluate_asset, h1, h2]
    exact ⟨he, by rw [FrameioDownloader.init, he]⟩

/-- Folder asset (wrong _type), for the claim C7 witness. -/
def c7a_asset : Asset :=
  ⟨("dddd"), ("f"), some ("folder"), some ("t"), none, false, 10, none,
    none⟩

/-- File asset with no upload_completed_at, for the claim C7 witness. -/
def c7b_asset : Asset :=
  ⟨("eeee"), ("g.mp4"), some ("file"), none, none, false, 10, none, none⟩

/-- Witness for claim C7 at the two concrete assets. -/
theorem evaluate_asset_validation_witness :
    FrameioDownloader.init id c7a_asset ("dl") none false false false =
      .error .downloadException
    ∧ FrameioDownloader.init id c7b_asset ("dl") none false false false =
      .error .assetNotFullyUploaded :=
  ⟨((evaluate_asset_validation c7a_asset id ("dl") none false false
      false).1 (by decide)).2,
   ((evaluate_asset_validation c7b_asset id ("dl") none false false
      false).2 rfl rfl).2⟩

/-- Helper for claim C8: one _download_chunk counter update leaves both
counters at or below the filesize, whatever state it starts from. -/
theorem download_chunk_step_bounds (F : Int) (st : ChunkCounters)
    (s e l : Int) :
    (download_chunk_step F st s e l).1.bytes_started ≤ F
    ∧ (download_chunk_step F st s e l).1.bytes_completed ≤ F := by
  unfold download_chunk_step
  constructor
  · dsimp only
    split_ifs with h
    · rw [abs_of_nonpos (by omega)]
      omega
    · omega
  · dsimp only
    split_ifs with h
    · omega
    · omega

/-- Helper for claim C8: folding chunk completions preserves the upper
bounds on both counters. -/
theorem run_chunks_preserved (F : Int) :
    ∀ (evs : List (Int × Int × Int)) (st : ChunkCounters),
      st.bytes_started ≤ F → st.bytes_completed ≤ F →
      (evs.foldl
        (fun st ev => (download_chunk_step F st ev.1 ev.2.1 ev.2.2).1)
        st).bytes_started ≤ F
      ∧ (evs.foldl
          (fun st ev => (download_chunk_step F st ev.1 ev.2.1 ev.2.2).1)
          st).bytes_completed ≤ F
  | [], _, h1, h2 => ⟨h1, h2⟩
  | ev :: evs, st, _, _ => by
    rw [List.foldl_cons]
    exact run_chunks_preserved F evs _
      (download_chunk_step_bounds F st ev.1 ev.2.1 ev.2.2).1
      (download_chunk_step_bounds F st ev.1 ev.2.1 ev.2.2).2

/-- Claim C8: over any sequence of chunk completions (in settlement
order, from the zero-initialised counters) the bytes_completed counter
never exceeds the filesize -- the clamp at lines 478 and 479 runs after
every chunk completion -- and bytes_started never exceeds it either:
whenever a chunk's nominal size would push bytes_started past the
filesize, lines 451 to 455 first shrink the recorded size by the
overshoot, leaving bytes_started exactly at the filesize (last
conjunct). -/
theorem chunk_byte_accounting (F : Int) (hF : 0 ≤ F)
    (evs : List (Int × Int × Int)) :
    (run_chunks F evs).bytes_started ≤ F
    ∧ (run_chunks F evs).bytes_completed ≤ F
    ∧ (∀ (st : ChunkCounters) (s e l : Int),
        st.bytes_started + (e - s) > F →
        (download_chunk_step F st s e l).1.bytes_started = F) := by
  refine ⟨(run_chunks_preserved F evs ⟨0, 0⟩ hF hF).1,
    (run_chunks_preserved F evs ⟨0, 0⟩ hF hF).2, ?_⟩
  intro st s e l h
  unfold download_chunk_step
  dsimp only
  rw [if_pos h, abs_of_nonpos (by omega)]
  omega

/-- Witness for claim C8: a 100 byte file downloaded in three chunks
whose planner ranges overshoot to 120; both counters stay at 100. -/
theorem chunk_byte_accounting_witness :
    (run_chunks 100 [(0, 40, 40), (40, 80, 40), (80, 120, 20)]
      ).bytes_started ≤ 100
    ∧ (run_chunks 100 [(0, 40, 40), (40, 80, 40), (80, 120, 20)]
        ).bytes_completed ≤ 100 :=
  ⟨(chunk_byte_accounting 100 (by decide)
      [(0, 40, 40), (40, 80, 40), (80, 120, 20)]).1,
   (chunk_byte_accounting 100 (by decide)
      [(0, 40, 40), (40, 80, 40), (80, 120, 20)]).2.1⟩

/-- Asset for claim C9, with a recognisable id whose first 8 characters
are 8fa26e04 (the example in the source comment at line 89). -/
def c9_asset : Asset :=
  ⟨("8fa26e04-9999"), ("film.mp4"), some ("file"), some ("t"),
    some ("abc"), false, 100000000, some ("http://x/orig"), none⟩

/-- The downloader __init__ produces for c9_asset with temp naming
enabled. -/
def c9_dl : FrameioDownloader :=
  ⟨c9_asset, ("Downloads"), none, false, false, true, false, 100000000,
    some ("abc"), true, false, 4, ("film.mp4"), ("Downloads/film.mp4"),
    some ("Downloads/film.mp4/.tmp-8fa26e04"), true⟩

/-- Claim C9: the claim (and the source comment at line 89, whose example
reads film.mp4.tmp-8fa26e04) says the temp path is the destination with
the suffix .tmp-<first 8 chars of the id> appended DIRECTLY. The source
instead builds it with os.path.join(self.destination, ...) at line 90,
which inserts a path separator, producing
Downloads/film.mp4/.tmp-8fa26e04 -- a path INSIDE a directory named like
the destination file -- rather than Downloads/film.mp4.tmp-8fa26e04. The
first conjunct pins the constructor output, the second the computed temp
path, the third its difference from the claimed concatenation. -/
theorem temp_path_contains_separator :
    FrameioDownloader.init id c9_asset ("Downloads") none false false true
      = .ok c9_dl
    ∧ c9_dl.destination_temp = some ("Downloads/film.mp4/.tmp-8fa26e04")
    ∧ c9_dl.destination_temp ≠
        some (c9_dl.destination ++ (".tmp-8fa26e04")) := by decide

/-- Claim C10: whenever the asset dict has no original key and the URL
resolution nevertheless succeeded (the watermark variant path), the
download is aborted by an uncaught KeyError: AWSClient.__init__
unconditionally evaluates downloader.asset at the key original
(line 273) while constructing the transfer client, after
get_download_key returned and before any transfer method runs -- so no
transfer result can be produced and the resolved variant URL is never
fetched. -/
theorem download_missing_original_keyerror (d : FrameioDownloader)
    (u : String) (h1 : d.asset.original = none)
    (h2 : d.get_download_key = .ok u) :
    d.download none = .error (.keyError ("original"))
    ∧ ∀ (m : TransferMethod) (v : String),
        d.download none ≠ .ok (.transfer m v) := by
  have hts : d.transfer_stage = .error (.keyError ("original")) := by
    rw [FrameioDownloader.transfer_stage, h2, h1]
  have hd : d.download none = .error (.keyError ("original")) := by
    rw [FrameioDownloader.download, hts]
  refine ⟨hd, ?_⟩
  intro m v
  rw [hd]
  intro hc
  exact Except.noConfusion hc

/-- Watermarked asset with no original URL and a well-formed variant map,
for the claim C10 witness. -/
def c10_asset : Asset :=
  ⟨("ffff"), ("wm.mp4"), some ("file"), some ("t"), none, true, 50000000,
    none, some [(("hd_1080"), some ("url2")), (("sd_360"), some ("url1"))]⟩

/-- Downloader over c10_asset. -/
def c10_dl : FrameioDownloader :=
  ⟨c10_asset, ("dl"), none, false, false, false, true, 50000000, none,
    true, false, 2, ("wm.mp4"), ("dl/wm.mp4"), none, true⟩

/-- Witness for claim C10: the concrete watermarked downloader resolves
url2 from its variants, yet download() raises KeyError. -/
theorem download_missing_original_keyerror_witness :
    c10_dl.download none = .error (.keyError ("original")) :=
  (download_missing_original_keyerror c10_dl ("url2") rfl (by decide)).1

end Frameio
